import Mathlib

/-!
Verification of the Desktop-AI realtime voice client.

This file shallowly embeds the parts of the repository that the verified
properties concern:

* `realtime_client.py` — the `RealtimeClient` class: the inbound event
  dispatcher `handle_event`, the receive callback `default_on_message`, and
  the outbound operations `send_text_message` and `create_response`;
* `pi-realtime.py` — the push-to-talk release logic of `main`, and
  `normalize_audio`;
* `mac-realtime.py` — `PushToTalk.on_release`;
* `main.py` — the speaker-amplifier gating of `play_audio` /
  `stop_audio_playback`.

Decoded JSON values are modelled by an inductive `Json` type, and each Python
dictionary/iteration primitive used by the source is modelled by a fallible
operation in `Except PyErr`, so that the dynamic failures the Python code can
raise (KeyError, AttributeError, TypeError) are visible in the embedding.
-/

/-- A decoded JSON value, as produced by `json.loads`.  Numbers are modelled
as integers (the protocol events the client handles carry no fractional
numbers); objects are ordered key/value lists, with Python dict semantics
(a later duplicate key overrides an earlier one). -/
inductive Json where
  | null : Json
  | bool (b : Bool) : Json
  | num (n : Int) : Json
  | str (s : String) : Json
  | arr (xs : List Json) : Json
  | obj (kvs : List (String × Json)) : Json

/-- Dynamic errors the Python code can raise while handling a value. -/
inductive PyErr where
  /-- `d[k]` on a dict without key `k`. -/
  | keyError (k : String) : PyErr
  /-- calling `.get` on a value that is not a dict. -/
  | attrError : PyErr
  /-- subscripting / iterating a value of the wrong type. -/
  | typeError : PyErr
deriving DecidableEq, Repr

namespace Json

/-- Dictionary lookup with Python semantics: the last binding of a duplicated
key wins (as in a dict built by `json.loads`). -/
def dlookup (kvs : List (String × Json)) (k : String) : Option Json :=
  kvs.foldl (fun acc p => if p.1 = k then some p.2 else acc) none

/-- `d.get(k, dflt)`: raises `AttributeError` unless `d` is a dict. -/
def pyGet (j : Json) (k : String) (dflt : Json) : Except PyErr Json :=
  match j with
  | .obj kvs => .ok ((dlookup kvs k).getD dflt)
  | _ => .error .attrError

/-- `d.get(k)` (single-argument form, default `None`). -/
def pyGet1 (j : Json) (k : String) : Except PyErr Json :=
  pyGet j k .null

/-- `d[k]`: `KeyError` on a dict without the key, `TypeError` on non-dicts
(string subscripts are invalid for every other JSON value). -/
def pyIndex (j : Json) (k : String) : Except PyErr Json :=
  match j with
  | .obj kvs =>
    match dlookup kvs k with
    | some v => .ok v
    | none => .error (.keyError k)
  | _ => .error .typeError

/-- Python equality of a JSON value with a string literal. -/
def eqStr (j : Json) (s : String) : Bool :=
  match j with
  | .str t => t = s
  | _ => false

/-- Python truthiness of a decoded JSON value. -/
def truthy : Json → Bool
  | .null => false
  | .bool b => b
  | .num n => n ≠ 0
  | .str s => s ≠ ""
  | .arr xs => !xs.isEmpty
  | .obj kvs => !kvs.isEmpty

/-- `for x in j`: lists iterate their elements, dicts their keys, strings
their one-character substrings; other values raise `TypeError`. -/
def pyIter (j : Json) : Except PyErr (List Json) :=
  match j with
  | .arr xs => .ok xs
  | .obj kvs => .ok (kvs.map (fun p => Json.str p.1))
  | .str s => .ok (s.toList.map (fun ch => Json.str (String.mk [ch])))
  | _ => .error .typeError

end Json

/-! ### base64 decoding (`base64.b64decode`)

Characters outside the base64 alphabet are discarded before decoding (the
`validate=False` behaviour); decoding stops at the first padding character;
an input whose significant length is not a multiple of four is rejected
(`binascii.Error`). -/

/-- The value of a base64 alphabet character. -/
def b64val (c : Char) : Option Nat :=
  if 'A' ≤ c ∧ c ≤ 'Z' then some (c.toNat - 'A'.toNat)
  else if 'a' ≤ c ∧ c ≤ 'z' then some (c.toNat - 'a'.toNat + 26)
  else if '0' ≤ c ∧ c ≤ '9' then some (c.toNat - '0'.toNat + 52)
  else if c = '+' then some 62
  else if c = '/' then some 63
  else none

/-- Decode complete and final partial quadruples of base64 digit values into
bytes.  A trailing group of a single digit is invalid. -/
def b64quads : List Nat → Except Unit (List Nat)
  | [] => .ok []
  | [_] => .error ()
  | [a, b] => .ok [(a * 4 + b / 16) % 256]
  | [a, b, c] => .ok [(a * 4 + b / 16) % 256, (b % 16 * 16 + c / 4) % 256]
  | a :: b :: c :: d :: rest => do
    let tail ← b64quads rest
    .ok ([(a * 4 + b / 16) % 256, (b % 16 * 16 + c / 4) % 256,
          (c % 4 * 64 + d) % 256] ++ tail)

/-- `base64.b64decode(s)` on a string: discard non-alphabet characters, stop
at the first `=`, and require a validly padded length. -/
def b64decode (s : String) : Except Unit (List Nat) :=
  let cs := s.toList.filter (fun c => (b64val c).isSome ∨ c = '=')
  let body := cs.takeWhile (fun c => c ≠ '=')
  let pad := cs.length - body.length
  if (body.length + min pad 2) % 4 = 0 then
    b64quads (body.filterMap b64val)
  else
    .error ()

/-- `base64.b64decode(delta)` where `delta` is an arbitrary decoded JSON
value: non-strings raise `TypeError`, which the caller catches together with
decode errors. -/
def b64try (delta : Json) : Except Unit (List Nat) :=
  match delta with
  | .str s => b64decode s
  | _ => .error ()

/-! ### The `RealtimeClient` state -/

/-- An input/output modality.  The `RealtimeClient` constructor raises
`ValueError` on any other string, so a live client always carries one of
these two values. -/
inductive Modality where
  | text : Modality
  | audio : Modality
deriving DecidableEq, Repr

/-- The mutable state of a `RealtimeClient`, restricted to the fields the
verified operations read and write.  `ws` is the WebSocket connection when
one exists; its oracle component tells whether the n-th `ws.send` call since
construction is delivered or raises (a send on a broken transport raises,
which the source catches).  `sendCount` counts the `ws.send` calls made. -/
structure Client where
  input : Modality
  output : Modality
  /-- whether an `audio_playback_func` was supplied at construction -/
  playbackPresent : Bool
  /-- `self.audio_buffer`, a byte sequence -/
  audio_buffer : List Nat
  /-- `self.ws`: `none` when not connected, otherwise the delivery oracle -/
  ws : Option (Nat → Bool)
  sendCount : Nat

/-- A client as built by `RealtimeClient.__init__` (not yet connected,
empty audio buffer). -/
def mkClient (input output : Modality) (playbackPresent : Bool) : Client :=
  { input := input, output := output, playbackPresent := playbackPresent,
    audio_buffer := [], ws := none, sendCount := 0 }

/-- The observable effects of dispatching inbound events: the assistant
texts printed (`print(f"AI: ...")`), and the audio payloads handed to
`audio_playback_func`. -/
structure Eff where
  texts : List Json
  playbacks : List (List Nat)

/-- No effects. -/
def Eff.empty : Eff := ⟨[], []⟩

/-- Effects compose in sequence. -/
def Eff.append (e₁ e₂ : Eff) : Eff :=
  ⟨e₁.texts ++ e₂.texts, e₁.playbacks ++ e₂.playbacks⟩

/-! ### `RealtimeClient.handle_event` (realtime_client.py lines 71-143) -/

/-- The inner loop of the `response.done` branch over one message item's
`content` list: scan for the first content entry whose `type` is `"text"`,
then surface its (truthy) `text` and `break`. -/
def contentLoop : List Json → Except PyErr (Option Json)
  | [] => .ok none
  | ci :: rest =>
    match Json.pyGet1 ci "type" with
    | .error e => .error e
    | .ok t =>
      if t.eqStr "text" then
        match Json.pyGet ci "text" (.str "") with
        | .error e => .error e
        | .ok ai => .ok (if ai.truthy then some ai else none)
      else contentLoop rest

/-- The outer loop of the `response.done` branch over `response.output`:
every assistant message item surfaces (at most) one text. -/
def extractLoop : List Json → Except PyErr (List Json)
  | [] => .ok []
  | item :: rest =>
    match Json.pyGet1 item "type" with
    | .error e => .error e
    | .ok ti =>
      if ti.eqStr "message" then
        match Json.pyGet1 item "role" with
        | .error e => .error e
        | .ok ri =>
          if ri.eqStr "assistant" then
            match Json.pyGet item "content" (.arr []) with
            | .error e => .error e
            | .ok content =>
              match content.pyIter with
              | .error e => .error e
              | .ok cs =>
                match contentLoop cs with
                | .error e => .error e
                | .ok found =>
                  match extractLoop rest with
                  | .error e => .error e
                  | .ok restTexts => .ok (found.toList ++ restTexts)
          else extractLoop rest
      else extractLoop rest

/-- The `response.done` branch: extract and surface assistant texts, then —
if the output modality is audio, the accumulated buffer is truthy and a
playback function exists — play the buffer and clear it (the clear runs in a
`finally`, so it happens whether or not playback raises). -/
def handleDone (c : Client) (data : Json) : Except PyErr (Client × Eff) :=
  match Json.pyGet data "response" (.obj []) with
  | .error e => .error e
  | .ok response =>
    match Json.pyGet response "output" (.arr []) with
    | .error e => .error e
    | .ok output =>
      match output.pyIter with
      | .error e => .error e
      | .ok items =>
        match extractLoop items with
        | .error e => .error e
        | .ok texts =>
          if c.output = .audio ∧ ¬c.audio_buffer.isEmpty ∧ c.playbackPresent then
            .ok ({ c with audio_buffer := [] }, ⟨texts, [c.audio_buffer]⟩)
          else
            .ok (c, ⟨texts, []⟩)

/-- The `response.audio.delta` branch: when the output modality is audio,
read `data["delta"]` (a `KeyError` if absent), and if truthy, base64-decode
it and extend the buffer; decode failures are caught and logged. -/
def handleDelta (c : Client) (data : Json) : Except PyErr (Client × Eff) :=
  if c.output = .audio then
    match Json.pyIndex data "delta" with
    | .error e => .error e
    | .ok delta =>
      if delta.truthy then
        match b64try delta with
        | .ok bs => .ok ({ c with audio_buffer := c.audio_buffer ++ bs }, Eff.empty)
        | .error _ => .ok (c, Eff.empty)
      else .ok (c, Eff.empty)
  else .ok (c, Eff.empty)

/-- The logging loop of the `conversation.item.create` branch over the user
content list (it only reads fields, but those reads can raise). -/
def userContentLoop : List Json → Except PyErr Unit
  | [] => .ok ()
  | ci :: rest =>
    match Json.pyGet1 ci "type" with
    | .error e => .error e
    | .ok t =>
      if t.eqStr "input_text" then
        match Json.pyGet ci "text" (.str "") with
        | .error e => .error e
        | .ok _ => userContentLoop rest
      else userContentLoop rest

/-- The `conversation.item.create` branch (logging only). -/
def handleItemCreate (c : Client) (data : Json) : Except PyErr (Client × Eff) :=
  match Json.pyGet data "item" (.obj []) with
  | .error e => .error e
  | .ok item =>
    match Json.pyGet1 item "type" with
    | .error e => .error e
    | .ok ti =>
      if ti.eqStr "message" then
        match Json.pyGet1 item "role" with
        | .error e => .error e
        | .ok ri =>
          if ri.eqStr "user" then
            match Json.pyGet item "content" (.arr []) with
            | .error e => .error e
            | .ok content =>
              match content.pyIter with
              | .error e => .error e
              | .ok cs =>
                match userContentLoop cs with
                | .error e => .error e
                | .ok _ => .ok (c, Eff.empty)
          else .ok (c, Eff.empty)
      else .ok (c, Eff.empty)

/-- The `response.create` branch (logging only). -/
def handleRespCreate (c : Client) (data : Json) : Except PyErr (Client × Eff) :=
  match Json.pyGet data "response" (.obj []) with
  | .error e => .error e
  | .ok response =>
    match Json.pyGet response "modalities" (.arr []) with
    | .error e => .error e
    | .ok _ => .ok (c, Eff.empty)

/-- The `error` branch (logging only). -/
def handleError (c : Client) (data : Json) : Except PyErr (Client × Eff) :=
  match Json.pyGet data "error" (.obj []) with
  | .error e => .error e
  | .ok err =>
    match Json.pyGet err "message" (.str "Unknown error") with
    | .error e => .error e
    | .ok _ => .ok (c, Eff.empty)

/-- `RealtimeClient.handle_event`: route a decoded event by its `type`
field; any type not in the five recognized kinds is only logged. -/
def handle_event (c : Client) (data : Json) : Except PyErr (Client × Eff) :=
  match Json.pyGet1 data "type" with
  | .error e => .error e
  | .ok t =>
    if t.eqStr "response.done" then handleDone c data
    else if t.eqStr "response.audio.delta" then handleDelta c data
    else if t.eqStr "conversation.item.create" then handleItemCreate c data
    else if t.eqStr "response.create" then handleRespCreate c data
    else if t.eqStr "error" then handleError c data
    else .ok (c, Eff.empty)

/-- Dispatch a sequence of decoded inbound events in order, accumulating
effects; an uncaught error in any dispatch aborts the run. -/
def processEvents (c : Client) : List Json → Except PyErr (Client × Eff)
  | [] => .ok (c, Eff.empty)
  | e :: rest =>
    match handle_event c e with
    | .error err => .error err
    | .ok (c₁, eff₁) =>
      match processEvents c₁ rest with
      | .error err => .error err
      | .ok (c₂, eff₂) => .ok (c₂, eff₁.append eff₂)

/-- `default_on_message` (realtime_client.py lines 169-177): parse the raw
message; a parse failure (`json.JSONDecodeError`) is caught, logged and
dropped; a successfully decoded event goes to `handle_event`, whose errors
are not caught.  `parse` stands for `json.loads`. -/
def default_on_message (parse : String → Option Json) (c : Client)
    (msg : String) : Except PyErr (Client × Eff) :=
  match parse msg with
  | none => .ok (c, Eff.empty)
  | some data => handle_event c data

/-! ### Outbound operations (realtime_client.py lines 197-331)

`ws.send` on a live connection either delivers the encoded event or raises
(e.g. on a connection that broke since `connect_websocket`); the oracle in
`Client.ws` decides the outcome of each attempt.  Every send the code makes
is recorded as an `Attempt`; the events actually on the wire are the
delivered ones. -/

/-- One `ws.send` call: the event payload and whether the send delivered
(rather than raised). -/
structure Attempt where
  ev : Json
  delivered : Bool

/-- Perform one `ws.send` through connection oracle `o`. -/
def wsSend (c : Client) (o : Nat → Bool) (ev : Json) : Client × Attempt :=
  ({ c with sendCount := c.sendCount + 1 }, ⟨ev, o c.sendCount⟩)

/-- The `conversation.item.create` event built by `send_text_message`. -/
def itemCreateEvent (text : String) : Json :=
  .obj [("type", .str "conversation.item.create"),
        ("item", .obj [("type", .str "message"), ("role", .str "user"),
          ("content", .arr [.obj [("type", .str "input_text"),
                                  ("text", .str text)]])])]

/-- The `response.create` event built by `create_response`. -/
def respCreateEvent (mods : List String) : Json :=
  .obj [("type", .str "response.create"),
        ("response", .obj [("modalities", .arr (mods.map Json.str))])]

/-- The modalities `create_response` uses when called with `modalities=None`:
text is always included, audio added when the configured output modality is
audio. -/
def defaultMods : Modality → List String
  | .audio => ["text", "audio"]
  | .text => ["text"]

/-- `RealtimeClient.create_response` (lines 293-331): without a connection,
log and return `False`; otherwise resolve the modalities (an explicit list is
used verbatim) and send one `response.create` event, returning `False` if the
send raises (the exception is caught). -/
def create_response (c : Client) (mods : Option (List String)) :
    Client × List Attempt × Bool :=
  match c.ws with
  | none => (c, [], false)
  | some o =>
    let resolved := mods.getD (defaultMods c.output)
    let (c₁, a) := wsSend c o (respCreateEvent resolved)
    (c₁, [a], a.delivered)

/-- `RealtimeClient.send_text_message` (lines 197-241): without a connection,
or when the configured input modality is not text, log and return `False`
sending nothing; otherwise send the user message event — if that send raises,
the exception is caught and `False` returned — then call `create_response()`
(whose boolean result is ignored) and return `True`. -/
def send_text_message (c : Client) (text : String) :
    Client × List Attempt × Bool :=
  match c.ws with
  | none => (c, [], false)
  | some o =>
    if c.input ≠ .text then (c, [], false)
    else
      let (c₁, a₁) := wsSend c o (itemCreateEvent text)
      if a₁.delivered then
        let (c₂, as₂, _) := create_response c₁ none
        (c₂, a₁ :: as₂, true)
      else (c₁, [a₁], false)

/-- The events a call actually put on the wire: the delivered attempts. -/
def sentEvents (r : Client × List Attempt × Bool) : List Json :=
  (r.2.1.filter (fun a => a.delivered)).map (fun a => a.ev)

/-! ### Push-to-talk release (pi-realtime.py lines 219-235,
mac-realtime.py lines 191-205)

Both front ends compute the hold duration on release and compare it with
the 0.5 s threshold using a strict `held_time > 0.5`.  The release handler
is embedded as a function of the hold duration `d` (seconds, exact
rationals), returning the ordered list of calls it makes; the stream is the
one started by the preceding press. -/

/-- A call made by a release handler, in program order. -/
inductive PTAction where
  | stopStream : PTAction
  | ledOff : PTAction
  | commitAudio : PTAction
  | createResponse : PTAction
deriving DecidableEq, Repr

/-- The `elif not button_is_down and button_was_down` branch of
`pi-realtime.py`'s main loop: stop and close the stream, LED off, then
commit and request a response only when the hold was strictly longer than
0.5 s. -/
def piOnRelease (d : ℚ) : List PTAction :=
  [.stopStream, .ledOff] ++
    (if d > 1/2 then [.commitAudio, .createResponse] else [])

/-- `PushToTalk.on_release` in `mac-realtime.py`: stop and close the stream,
then commit and request a response only when the hold was strictly longer
than 0.5 s. -/
def macOnRelease (d : ℚ) : List PTAction :=
  [.stopStream] ++
    (if d > 1/2 then [.commitAudio, .createResponse] else [])

/-! ### Speaker-amplifier gating (main.py lines 192-227 and 322-325,
pi-realtime.py lines 125-150)

`play_audio` first calls `stop_audio_playback()`, then enables the speaker
and spawns a non-blocking `aplay` process (disabling the speaker again and
clearing the process handle if the spawn raises).  `stop_audio_playback`
terminates the process, clears the handle and disables the speaker — but
only when a process handle exists and `poll()` reports it still running.
When the `aplay` process exits on its own, no Python code runs at that
instant, but the end of every iteration of the control loop polls the
handle ("Check if playback has finished on its own", lines 322-325): if a
handle exists and `poll()` reports the process exited, the handle is
cleared and the speaker disabled. -/

/-- The recorded state of the `aplay` child process. -/
inductive ProcState where
  | running : ProcState
  | exited : ProcState
deriving DecidableEq, Repr

/-- The observable playback state of `main.py`: the speaker-amplifier gate
(`SPEAKER_SHUTDOWN_PIN`) and the global `playback_process` handle. -/
structure AmpState where
  speaker : Bool
  proc : Option ProcState
deriving DecidableEq, Repr

/-- Module initialization: gate low, no playback process. -/
def ampInit : AmpState := ⟨false, none⟩

/-- `stop_audio_playback()`: acts (and disables the speaker) only when the
recorded process is still running; returns whether it interrupted anything. -/
def stop_audio_playback (s : AmpState) : AmpState × Bool :=
  match s.proc with
  | some .running => (⟨false, none⟩, true)
  | _ => (s, false)

/-- `play_audio(filename)`: stop any previous playback, enable the speaker,
spawn `aplay`; on a spawn failure disable the speaker and clear the handle. -/
def play_audio (spawnOk : Bool) (s : AmpState) : AmpState :=
  let s₁ := (stop_audio_playback s).1
  if spawnOk then { s₁ with speaker := true, proc := some .running }
  else { s₁ with speaker := false, proc := none }

/-- The end-of-iteration check of `main.py`'s control loop (lines 322-325):
when a playback handle exists and `poll()` reports the process no longer
running, clear the handle and disable the speaker. -/
def pollPlaybackDone (s : AmpState) : AmpState :=
  match s.proc with
  | some .exited => ⟨false, none⟩
  | _ => s

/-- Events driving the playback state: a `play_audio` call (with the spawn
outcome), a `stop_audio_playback` call, the `aplay` process exiting on its
own (which runs no Python code at that instant), or the control loop
reaching its end-of-iteration playback poll. -/
inductive AmpEvent where
  | play (spawnOk : Bool) : AmpEvent
  | stop : AmpEvent
  | procExit : AmpEvent
  | poll : AmpEvent

/-- One step of the playback subsystem. -/
def ampStep (s : AmpState) : AmpEvent → AmpState
  | .play ok => play_audio ok s
  | .stop => (stop_audio_playback s).1
  | .procExit =>
    match s.proc with
    | some .running => ⟨s.speaker, some .exited⟩
    | _ => s
  | .poll => pollPlaybackDone s

/-- Run the playback subsystem from initialization. -/
def ampRun (es : List AmpEvent) : AmpState := es.foldl ampStep ampInit

/-- Audio is flowing exactly while the `aplay` process runs. -/
def audioFlowing (s : AmpState) : Prop := s.proc = some .running

/-- The steps of the playback thread of `play_pcm16_audio`
(pi-realtime.py lines 129-148) as they affect the speaker gate: write the
temporary wav file, enable the speaker, run `aplay` to completion (this one
step covers `Popen` + `wait`, whether they complete or raise — the gate is
untouched either way), then the `finally` disables the speaker.  A raise
while writing the file skips straight to the `finally`. -/
inductive PiPlayStep where
  | writeWav : PiPlayStep
  | enableSpeaker : PiPlayStep
  | runAplay : PiPlayStep
  | disableSpeaker : PiPlayStep
deriving DecidableEq, Repr

/-- The step sequence the playback thread executes, by whether the wav
write raises. -/
def playPcm16Steps (writeRaises : Bool) : List PiPlayStep :=
  if writeRaises then [.writeWav, .disableSpeaker]
  else [.writeWav, .enableSpeaker, .runAplay, .disableSpeaker]

/-- The speaker gate after one playback-thread step. -/
def piGateStep (g : Bool) : PiPlayStep → Bool
  | .writeWav => g
  | .enableSpeaker => true
  | .runAplay => g
  | .disableSpeaker => false

/-- The speaker gate when the playback thread finishes. -/
def piGateAfterThread (writeRaises : Bool) (g₀ : Bool) : Bool :=
  (playPcm16Steps writeRaises).foldl piGateStep g₀

/-! ### `normalize_audio` (pi-realtime.py lines 116-123)

Samples are int16; `np.abs` wraps on the most negative value
(`abs(-32768) = -32768` in int16), `np.max` raises `ValueError` on an empty
array, and the scaling multiplies by the float `32767.0 / max`, then casts
back to int16 (truncation toward zero, wrapping).  The float arithmetic is
modelled exactly over the rationals; the claims proved about this function
concern only its branch structure, not rounding. -/

/-- Elementwise `np.abs` on an int16 value (wraps at the minimum). -/
def abs16 (x : ℤ) : ℤ := if x = -32768 then -32768 else |x|

/-- `np.max(np.abs(a))`: `none` models the `ValueError` numpy raises on a
zero-size array. -/
def maxAbs : List ℤ → Option ℤ
  | [] => none
  | x :: xs => some (xs.foldl (fun m y => max m (abs16 y)) (abs16 x))

/-- Truncation toward zero, as in a C cast of a float to an integer type. -/
def ratTrunc (q : ℚ) : ℤ := if q ≥ 0 then ⌊q⌋ else ⌈q⌉

/-- Cast an integer to int16 with wraparound (`astype(np.int16)`). -/
def toInt16 (n : ℤ) : ℤ := (n + 32768) % 65536 - 32768

/-- One sample of `(audio_array * (32767.0 / max_val)).astype(np.int16)`. -/
def scaleSample (m : ℤ) (x : ℤ) : ℤ :=
  toInt16 (ratTrunc ((x : ℚ) * (32767 / (m : ℚ))))

/-- `normalize_audio`: rescale an int16 array so its loudest sample sits at
full scale, returning the array unchanged when the maximum is zero.  The
error case models the `ValueError` from `np.max` on an empty array. -/
def normalize_audio (a : List ℤ) : Except String (List ℤ) :=
  match maxAbs a with
  | none => .error "zero-size array to reduction operation maximum"
  | some m => if m = 0 then .ok a else .ok (a.map (scaleSample m))

/-! ### Structured `response.done` payloads

For the extraction claims, a well-shaped `response.done` payload is given in
structured form and injected into `Json`; the specification-level extraction
is then compared with what `handle_event` computes on the injected event. -/

/-- One entry of a message item's `content` list. -/
structure ContentItem where
  ty : String
  text : String

/-- One item of `response.output`. -/
structure OutItem where
  ty : String
  role : String
  content : List ContentItem

/-- Inject a content entry into its JSON shape. -/
def ContentItem.toJson (ci : ContentItem) : Json :=
  .obj [("type", .str ci.ty), ("text", .str ci.text)]

/-- Inject an output item into its JSON shape. -/
def OutItem.toJson (it : OutItem) : Json :=
  .obj [("type", .str it.ty), ("role", .str it.role),
        ("content", .arr (it.content.map ContentItem.toJson))]

/-- A well-shaped `response.done` event with the given output items. -/
def mkDoneEvent (items : List OutItem) : Json :=
  .obj [("type", .str "response.done"),
        ("response", .obj [("output", .arr (items.map OutItem.toJson))])]

/-- Specification-level extraction from one message item: the first content
entry whose `type` is `"text"`, surfaced when its text is non-empty. -/
def firstTextSpec (cis : List ContentItem) : Option String :=
  match cis.find? (fun ci => ci.ty = "text") with
  | some ci => if ci.text ≠ "" then some ci.text else none
  | none => none

/-- Specification-level extraction from a `response.done` output: every
assistant message item surfaces (at most) its first text content. -/
def extractTextsSpec (items : List OutItem) : List String :=
  items.filterMap
    (fun it => if it.ty = "message" ∧ it.role = "assistant"
               then firstTextSpec it.content else none)

/-- The texts `handle_event` surfaces for an event (when it does not throw). -/
def surfacedTexts (c : Client) (e : Json) : Except PyErr (List Json) :=
  (handle_event c e).map (fun r => r.2.texts)

/-- The `type` field of an event compares equal to `s` (and reading it does
not throw). -/
def eventTypeIs (e : Json) (s : String) : Bool :=
  match Json.pyGet1 e "type" with
  | .ok t => t.eqStr s
  | .error _ => false

/-- An event is of a recognized kind when its `type` field matches one of the
five kinds `handle_event` dispatches on. -/
def knownKind (e : Json) : Bool :=
  eventTypeIs e "response.done" || eventTypeIs e "response.audio.delta" ||
  eventTypeIs e "conversation.item.create" || eventTypeIs e "response.create" ||
  eventTypeIs e "error"

/-- A decoded event that reaches the dispatcher's final `else`: an object
whose `type` field matches none of the recognized kinds. -/
def unknownKindEvent (e : Json) : Bool :=
  (match e with | .obj _ => true | _ => false) && !knownKind e

/-! ### Dispatcher lemmas -/

theorem Json.eqStr_true {t : Json} {s : String} (h : t.eqStr s = true) :
    t = .str s := by
  cases t <;> simp [Json.eqStr] at h
  exact congrArg Json.str h

theorem contentLoop_spec (cis : List ContentItem) :
    contentLoop (cis.map ContentItem.toJson) =
      .ok ((firstTextSpec cis).map Json.str) := by
  induction cis with
  | nil => rfl
  | cons ci rest ih =>
    by_cases hty : ci.ty = "text"
    · simp [contentLoop, ContentItem.toJson, Json.pyGet1, Json.pyGet,
        Json.dlookup, Json.eqStr, hty, firstTextSpec, Json.truthy]
      by_cases htxt : ci.text = ""
      · simp [htxt]
      · simp [htxt]
    · simp [contentLoop, ContentItem.toJson, Json.pyGet1, Json.pyGet,
        Json.dlookup, Json.eqStr, hty, firstTextSpec] at ih ⊢
      exact ih

theorem extractLoop_spec (items : List OutItem) :
    extractLoop (items.map OutItem.toJson) =
      .ok ((extractTextsSpec items).map Json.str) := by
  induction items with
  | nil => rfl
  | cons it rest ih =>
    by_cases hty : it.ty = "message"
    · by_cases hrole : it.role = "assistant"
      · simp [extractLoop, OutItem.toJson, Json.pyGet1, Json.pyGet,
          Json.dlookup, Json.eqStr, hty, hrole, Json.pyIter,
          contentLoop_spec, ih]
        cases h : firstTextSpec it.content with
        | none => simp [extractTextsSpec, List.filterMap_cons, hty, hrole, h]
        | some v => simp [extractTextsSpec, List.filterMap_cons, hty, hrole, h]
      · simp [extractLoop, OutItem.toJson, Json.pyGet1, Json.pyGet,
          Json.dlookup, Json.eqStr, hty, hrole, extractTextsSpec] at ih ⊢
        exact ih
    · simp [extractLoop, OutItem.toJson, Json.pyGet1, Json.pyGet,
        Json.dlookup, Json.eqStr, hty, extractTextsSpec] at ih ⊢
      exact ih

/-- What one `response.done` dispatch does on a well-shaped payload. -/
def doneStep (c : Client) (items : List OutItem) : Client × Eff :=
  if c.output = .audio ∧ ¬c.audio_buffer.isEmpty ∧ c.playbackPresent then
    ({ c with audio_buffer := [] },
     ⟨(extractTextsSpec items).map Json.str, [c.audio_buffer]⟩)
  else (c, ⟨(extractTextsSpec items).map Json.str, []⟩)

theorem handle_event_mkDone (c : Client) (items : List OutItem) :
    handle_event c (mkDoneEvent items) = .ok (doneStep c items) := by
  simp [handle_event, mkDoneEvent, Json.pyGet1, Json.pyGet, Json.dlookup,
    Json.eqStr, handleDone, Json.pyIter, extractLoop_spec, doneStep]
  split <;> rfl

theorem Eff.append_empty (x : Eff) : x.append Eff.empty = x := by
  cases x; simp [Eff.append, Eff.empty]

theorem Eff.empty_append (x : Eff) : Eff.empty.append x = x := by
  cases x; simp [Eff.append, Eff.empty]

theorem processEvents_singleton (c : Client) (e : Json) :
    processEvents c [e] = handle_event c e := by
  cases hE : handle_event c e with
  | error err => simp [processEvents, hE]
  | ok p => simp [processEvents, hE, Eff.append_empty]

theorem processEvents_append (c : Client) (es fs : List Json) :
    processEvents c (es ++ fs) =
      match processEvents c es with
      | .error err => .error err
      | .ok (c₁, eff₁) =>
        match processEvents c₁ fs with
        | .error err => .error err
        | .ok (c₂, eff₂) => .ok (c₂, eff₁.append eff₂) := by
  induction es generalizing c with
  | nil =>
    simp [processEvents]
    cases processEvents c fs with
    | error err => simp
    | ok p => simp [Eff.empty_append]
  | cons e rest ih =>
    simp only [List.cons_append, processEvents]
    cases hE : handle_event c e with
    | error err => simp
    | ok p =>
      obtain ⟨c₁, eff₁⟩ := p
      simp only [List.append_eq] at ih ⊢
      rw [ih c₁]
      cases hR : processEvents c₁ rest with
      | error err => simp
      | ok q =>
        obtain ⟨c₂, eff₂⟩ := q
        cases hF : processEvents c₂ fs with
        | error err => simp [hR, hF]
        | ok r =>
          obtain ⟨c₃, eff₃⟩ := r
          simp [hR, hF, Eff.append, List.append_assoc]

/-- `handle_event` only ever writes `audio_buffer`: configuration and
connection are untouched by inbound dispatch. -/
theorem handle_event_frame (c : Client) (e : Json) (c' : Client) (eff : Eff)
    (h : handle_event c e = .ok (c', eff)) :
    c'.input = c.input ∧ c'.output = c.output ∧
    c'.playbackPresent = c.playbackPresent ∧ c'.ws = c.ws := by
  unfold handle_event handleDone handleDelta handleItemCreate
    handleRespCreate handleError at h
  repeat' split at h
  all_goals first
    | exact Except.noConfusion h
    | (injection h with h'; injection h' with h1 h2;
       subst h1; subst h2; simp_all [Eff.empty])

/-- A client whose output modality is text never touches its audio buffer
and never plays: the delta branch is gated on audio output and so is the
playback guard of the done branch. -/
theorem handle_event_text (c : Client) (e : Json) (c' : Client) (eff : Eff)
    (hout : c.output = .text) (h : handle_event c e = .ok (c', eff)) :
    c'.audio_buffer = c.audio_buffer ∧ eff.playbacks = [] := by
  unfold handle_event handleDone handleDelta handleItemCreate
    handleRespCreate handleError at h
  repeat' split at h
  all_goals first
    | exact Except.noConfusion h
    | (injection h with h'; injection h' with h1 h2;
       subst h1; subst h2; simp_all [Eff.empty])

/-- Dispatching any event that is not a `response.audio.delta` on an empty
audio buffer leaves the buffer empty and triggers no playback. -/
theorem handle_event_nodelta (c : Client) (e : Json) (c' : Client) (eff : Eff)
    (hb : c.audio_buffer = [])
    (hnd : eventTypeIs e "response.audio.delta" = false)
    (h : handle_event c e = .ok (c', eff)) :
    c'.audio_buffer = [] ∧ eff.playbacks = [] := by
  unfold handle_event handleDone handleDelta handleItemCreate
    handleRespCreate handleError at h
  unfold eventTypeIs at hnd
  repeat' split at h
  all_goals first
    | exact Except.noConfusion h
    | (injection h with h'; injection h' with h1 h2;
       subst h1; subst h2; simp_all [Eff.empty])

theorem processEvents_text (es : List Json) :
    ∀ (c c' : Client) (eff : Eff), c.output = .text →
      processEvents c es = .ok (c', eff) →
      c'.audio_buffer = c.audio_buffer ∧ eff.playbacks = [] ∧
      c'.output = .text := by
  induction es with
  | nil =>
    intro c c' eff hout h
    simp [processEvents] at h
    obtain ⟨rfl, rfl⟩ := h
    exact ⟨rfl, rfl, hout⟩
  | cons e rest ih =>
    intro c c' eff hout h
    simp only [processEvents] at h
    cases hE : handle_event c e with
    | error err => simp [hE] at h
    | ok p =>
      obtain ⟨c₁, eff₁⟩ := p
      simp only [hE] at h
      cases hR : processEvents c₁ rest with
      | error err => simp [hR] at h
      | ok q =>
        obtain ⟨c₂, eff₂⟩ := q
        simp only [hR] at h
        simp at h
        obtain ⟨rfl, rfl⟩ := h
        have h₁ := handle_event_text c e c₁ eff₁ hout hE
        have hfr := handle_event_frame c e c₁ eff₁ hE
        have h₂ := ih c₁ c₂ eff₂ (hfr.2.1.trans hout) hR
        refine ⟨h₂.1.trans h₁.1, ?_, h₂.2.2⟩
        simp [Eff.append, h₁.2, h₂.2.1]

theorem processEvents_nodelta (es : List Json) :
    ∀ (c c' : Client) (eff : Eff), c.audio_buffer = [] →
      (∀ e ∈ es, eventTypeIs e "response.audio.delta" = false) →
      processEvents c es = .ok (c', eff) →
      c'.audio_buffer = [] ∧ eff.playbacks = [] := by
  induction es with
  | nil =>
    intro c c' eff hb _ h
    simp [processEvents] at h
    obtain ⟨rfl, rfl⟩ := h
    exact ⟨hb, rfl⟩
  | cons e rest ih =>
    intro c c' eff hb hall h
    simp only [processEvents] at h
    cases hE : handle_event c e with
    | error err => simp [hE] at h
    | ok p =>
      obtain ⟨c₁, eff₁⟩ := p
      simp only [hE] at h
      cases hR : processEvents c₁ rest with
      | error err => simp [hR] at h
      | ok q =>
        obtain ⟨c₂, eff₂⟩ := q
        simp only [hR] at h
        simp at h
        obtain ⟨rfl, rfl⟩ := h
        have h₁ := handle_event_nodelta c e c₁ eff₁ hb
          (hall e (List.mem_cons_self e rest)) hE
        have h₂ := ih c₁ c₂ eff₂ h₁.1
          (fun f hf => hall f (List.mem_cons_of_mem e hf)) hR
        exact ⟨h₂.1, by simp [Eff.append, h₁.2, h₂.2]⟩

/-- `processEvents` never changes a client's configuration or connection. -/
theorem processEvents_frame (es : List Json) :
    ∀ (c c' : Client) (eff : Eff), processEvents c es = .ok (c', eff) →
      c'.input = c.input ∧ c'.output = c.output ∧
      c'.playbackPresent = c.playbackPresent ∧ c'.ws = c.ws := by
  induction es with
  | nil =>
    intro c c' eff h
    simp [processEvents] at h
    obtain ⟨rfl, rfl⟩ := h
    exact ⟨rfl, rfl, rfl, rfl⟩
  | cons e rest ih =>
    intro c c' eff h
    simp only [processEvents] at h
    cases hE : handle_event c e with
    | error err => simp [hE] at h
    | ok p =>
      obtain ⟨c₁, eff₁⟩ := p
      simp only [hE] at h
      cases hR : processEvents c₁ rest with
      | error err => simp [hR] at h
      | ok q =>
        obtain ⟨c₂, eff₂⟩ := q
        simp only [hR] at h
        simp at h
        obtain ⟨rfl, rfl⟩ := h
        have h₁ := handle_event_frame c e c₁ eff₁ hE
        have h₂ := ih c₁ c₂ eff₂ hR
        exact ⟨h₂.1.trans h₁.1, h₂.2.1.trans h₁.2.1,
               h₂.2.2.1.trans h₁.2.2.1, h₂.2.2.2.trans h₁.2.2.2⟩

/-- Events of unrecognized kind reach the dispatcher's final `else`: they are
logged only, with no state change and no effect. -/
theorem handle_event_unknown (c : Client) (e : Json)
    (h : unknownKindEvent e = true) : handle_event c e = .ok (c, Eff.empty) := by
  cases e
  case obj kvs =>
    simp only [unknownKindEvent, Bool.and_eq_true, Bool.not_eq_true'] at h
    have hk : knownKind (Json.obj kvs) = false := h.2
    unfold knownKind eventTypeIs at hk
    simp only [Json.pyGet1, Json.pyGet, Bool.or_eq_false_iff] at hk
    unfold handle_event
    simp only [Json.pyGet1, Json.pyGet]
    simp [hk.1.1.1.1, hk.1.1.1.2, hk.1.1.2, hk.1.2, hk.2]
  all_goals simp [unknownKindEvent] at h

/-- A prefix of unrecognized events is invisible to the rest of the run. -/
theorem processEvents_skips_unknown_lead (es : List Json) :
    ∀ (c : Client), (∀ e ∈ es, unknownKindEvent e = true) →
      ∀ fs, processEvents c (es ++ fs) = processEvents c fs := by
  induction es with
  | nil => intro c _ fs; rfl
  | cons e rest ih =>
    intro c hall fs
    have hu := handle_event_unknown c e (hall e (List.mem_cons_self e rest))
    simp only [List.cons_append, processEvents, hu, List.append_eq]
    rw [ih c (fun f hf => hall f (List.mem_cons_of_mem e hf)) fs]
    cases processEvents c fs with
    | error err => rfl
    | ok p =>
      obtain ⟨c₂, eff₂⟩ := p
      simp [Eff.empty_append]

theorem doneStep_texts (c : Client) (items : List OutItem) :
    (doneStep c items).2.texts = (extractTextsSpec items).map Json.str := by
  unfold doneStep
  split <;> rfl

/-- Processing a well-typed `response.done` clears the audio buffer whenever
the client's output modality is audio and a playback function is configured
(the clear sits in a `finally`, and an already-empty buffer stays empty). -/
theorem handle_event_done_clears (c : Client) (e : Json) (c' : Client)
    (eff : Eff) (hdone : eventTypeIs e "response.done" = true)
    (hout : c.output = .audio) (hpb : c.playbackPresent = true)
    (h : handle_event c e = .ok (c', eff)) : c'.audio_buffer = [] := by
  unfold eventTypeIs at hdone
  unfold handle_event handleDone handleDelta handleItemCreate
    handleRespCreate handleError at h
  repeat' split at h
  all_goals first
    | exact Except.noConfusion h
    | (injection h with h'; injection h' with h1 h2;
       subst h1; subst h2; simp_all [List.isEmpty_iff])

/-! ### Claim C2 -/

/-- **C2 (amended).** The dispatcher never throws for a decoded event of
unrecognized kind: such events are logged and leave the client unchanged; a
message that fails JSON parsing is dropped without terminating the receive
loop; and a stream of 100 unknown-kind events followed by one valid
`response.done` still yields the correctly extracted assistant texts.
(Malformed events of the recognized kinds are excluded: they can throw —
see the counterexample.) -/
theorem dispatcher_tolerates_unknown_events :
    (∀ (c : Client) (e : Json), unknownKindEvent e = true →
       handle_event c e = .ok (c, Eff.empty)) ∧
    (∀ (parse : String → Option Json) (c : Client) (msg : String),
       parse msg = none → default_on_message parse c msg = .ok (c, Eff.empty)) ∧
    (∀ (c : Client) (es : List Json) (items : List OutItem),
       es.length = 100 → (∀ e ∈ es, unknownKindEvent e = true) →
       (processEvents c (es ++ [mkDoneEvent items])).map (fun r => r.2.texts) =
         .ok ((extractTextsSpec items).map Json.str)) := by
  refine ⟨handle_event_unknown, ?_, ?_⟩
  · intro parse c msg hp
    simp [default_on_message, hp]
  · intro c es items _ hall
    rw [processEvents_skips_unknown_lead es c hall [mkDoneEvent items],
        processEvents_singleton, handle_event_mkDone]
    simp [Except.map, doneStep_texts]

/-- Witness for C2: a concrete unknown event, a concrete parse failure, and
a concrete run of 100 unknown events followed by a `response.done` whose
assistant text `"hi"` is still extracted. -/
theorem dispatcher_tolerates_unknown_events_witness :
    handle_event (mkClient .text .text false) (.obj [("type", .str "weird")]) =
      .ok (mkClient .text .text false, Eff.empty) ∧
    default_on_message (fun _ => none) (mkClient .text .text false) "not json" =
      .ok (mkClient .text .text false, Eff.empty) ∧
    (processEvents (mkClient .text .text false)
        (List.replicate 100 (Json.obj [("type", Json.str "weird")]) ++
          [mkDoneEvent [⟨"message", "assistant", [⟨"text", "hi"⟩]⟩]])).map
        (fun r => r.2.texts) = .ok [Json.str "hi"] := by
  refine ⟨dispatcher_tolerates_unknown_events.1 _ _ rfl,
          dispatcher_tolerates_unknown_events.2.1 _ _ _ rfl, ?_⟩
  exact dispatcher_tolerates_unknown_events.2.2 _ _ _ (by simp)
    (by intro e he
        have he' := List.eq_of_mem_replicate he
        subst he'
        rfl)

/-- **C2 (counterexample).** The claim as stated ("the dispatcher never
throws for any decoded event") is false: a `response.audio.delta` event
without a `delta` field makes `handle_event` raise `KeyError` (the
`data["delta"]` subscript on line 110 of realtime_client.py) when the
output modality is audio, and neither `handle_event` nor
`default_on_message` catches it. -/
theorem dispatcher_throws_on_missing_delta :
    handle_event (mkClient .text .audio true)
      (.obj [("type", .str "response.audio.delta")]) =
      .error (.keyError "delta") := rfl

/-! ### Claim C5 -/

/-- **C5 (amended).** On a well-shaped `response.done`, the dispatcher
surfaces, for each assistant message item of `response.output` in order, the
first content entry whose `type` is `"text"` (when its text is non-empty);
when no assistant message item carries such content nothing is surfaced and
no error is raised.  (The code matches content type `"text"`, not
`"output_text"`, and surfaces a text from every assistant message item, not
only the first.) -/
theorem responseDone_surfaces_each_assistant_text (c : Client)
    (items : List OutItem) :
    surfacedTexts c (mkDoneEvent items) =
      .ok ((extractTextsSpec items).map Json.str) := by
  simp [surfacedTexts, handle_event_mkDone, Except.map, doneStep_texts]

/-- **C5 (counterexample).** The claim as stated predicts that only the
first assistant message item's first `output_text` content is surfaced —
here `"a"`.  The code instead surfaces `"b"`: it ignores the
`"output_text"`-typed content of the first item (it matches type `"text"`)
and it keeps scanning later assistant message items. -/
theorem responseDone_not_first_output_text :
    surfacedTexts (mkClient .text .text false)
      (mkDoneEvent [⟨"message", "assistant", [⟨"output_text", "a"⟩]⟩,
                    ⟨"message", "assistant", [⟨"text", "b"⟩]⟩]) =
      .ok [Json.str "b"] ∧ Json.str "b" ≠ Json.str "a" := by
  refine ⟨rfl, ?_⟩
  simp

/-! ### Claim C3 -/

/-- **C3 (amended).** After processing a `response.done`, the accumulated
audio buffer is empty again for every prior sequence of audio deltas —
provided the client has a playback function, or its output modality is text
(so nothing ever accumulates).  When the output modality is audio and no
playback function was configured, the buffer is not cleared (see the
counterexample): the clearing `finally` is only reached under the playback
guard on line 98 of realtime_client.py. -/
theorem audioBuffer_empty_after_done (inM outM : Modality) (pb : Bool)
    (es : List Json) (e : Json) (c' : Client) (eff : Eff)
    (hdone : eventTypeIs e "response.done" = true)
    (hside : pb = true ∨ outM = .text)
    (h : processEvents (mkClient inM outM pb) (es ++ [e]) = .ok (c', eff)) :
    c'.audio_buffer = [] := by
  by_cases hOut : outM = .text
  · subst hOut
    exact (processEvents_text (es ++ [e]) (mkClient inM .text pb) c' eff rfl
      h).1.trans rfl
  · have hpb : pb = true := by
      cases hside with
      | inl h' => exact h'
      | inr h' => exact absurd h' hOut
    subst hpb
    have houtA : outM = .audio := by
      cases outM
      · exact absurd rfl hOut
      · rfl
    subst houtA
    rw [processEvents_append] at h
    cases hx : processEvents (mkClient inM .audio true) es with
    | error err => rw [hx] at h; exact absurd h (by simp)
    | ok p =>
      obtain ⟨c₁, eff₁⟩ := p
      rw [hx] at h
      simp only [processEvents_singleton] at h
      cases hE : handle_event c₁ e with
      | error err => rw [hE] at h; exact absurd h (by simp)
      | ok q =>
        obtain ⟨c₂, eff₂⟩ := q
        rw [hE] at h
        simp at h
        obtain ⟨rfl, rfl⟩ := h
        have hfr := processEvents_frame es (mkClient inM .audio true) c₁ eff₁ hx
        exact handle_event_done_clears c₁ e _ eff₂ hdone hfr.2.1 hfr.2.2.1 hE

/-- Witness for C3: an audio client with a playback function receives one
delta (one decoded byte) and then a `response.done`; the buffer ends empty
(and the byte was handed to playback). -/
theorem audioBuffer_empty_after_done_witness :
    eventTypeIs (mkDoneEvent []) "response.done" = true ∧
    processEvents (mkClient .audio .audio true)
      [.obj [("type", .str "response.audio.delta"), ("delta", .str "AA==")],
       mkDoneEvent []] =
      .ok ({ input := .audio, output := .audio, playbackPresent := true,
             audio_buffer := [], ws := none, sendCount := 0 },
           ⟨[], [[0]]⟩) ∧
    ({ input := .audio, output := .audio, playbackPresent := true,
       audio_buffer := [], ws := none, sendCount := 0 } : Client).audio_buffer
      = [] := by
  refine ⟨rfl, rfl, ?_⟩
  exact audioBuffer_empty_after_done .audio .audio true
    [.obj [("type", .str "response.audio.delta"), ("delta", .str "AA==")]]
    (mkDoneEvent []) _ ⟨[], [[0]]⟩ rfl (Or.inl rfl) rfl

/-- **C3 (counterexample).** The claim as stated quantifies over every
client configuration; with output modality audio and no playback function
(a configuration the constructor allows with only a warning), the delta's
byte stays in the buffer after `response.done`. -/
theorem audioBuffer_retained_without_playback :
    processEvents (mkClient .audio .audio false)
      [.obj [("type", .str "response.audio.delta"), ("delta", .str "AA==")],
       mkDoneEvent []] =
      .ok ({ input := .audio, output := .audio, playbackPresent := false,
             audio_buffer := [0], ws := none, sendCount := 0 },
           ⟨[], []⟩) ∧
    ([0] : List Nat) ≠ [] := by
  exact ⟨rfl, by decide⟩

/-! ### Claim C4 -/

/-- **C4 (confirmed).** The playback function is never invoked unless some
`response.audio.delta` contributed bytes: for any event sequence containing
no audio-delta event the run makes no playback call (a text-only turn ending
in `response.done` included, with no error), and when the output modality is
text no delta is ever accumulated (the buffer stays empty) and no playback
occurs. -/
theorem no_playback_without_deltas (inM outM : Modality) (pb : Bool)
    (es : List Json) (c' : Client) (eff : Eff)
    (h : processEvents (mkClient inM outM pb) es = .ok (c', eff)) :
    ((∀ e ∈ es, eventTypeIs e "response.audio.delta" = false) →
       eff.playbacks = []) ∧
    (outM = .text → eff.playbacks = [] ∧ c'.audio_buffer = []) := by
  constructor
  · intro hall
    exact (processEvents_nodelta es (mkClient inM outM pb) c' eff rfl hall h).2
  · intro htext
    subst htext
    have hT := processEvents_text es (mkClient inM .text pb) c' eff rfl h
    exact ⟨hT.2.1, hT.1.trans rfl⟩

/-- Witness for C4: a delta-free, text-only turn — one `response.done`
carrying an assistant text — produces no playback call and leaves the
buffer empty. -/
theorem no_playback_without_deltas_witness :
    processEvents (mkClient .text .text false)
      [mkDoneEvent [⟨"message", "assistant", [⟨"text", "hi"⟩]⟩]] =
      .ok (mkClient .text .text false, ⟨[Json.str "hi"], []⟩) ∧
    (⟨[Json.str "hi"], []⟩ : Eff).playbacks = [] ∧
    (mkClient Modality.text Modality.text false).audio_buffer = [] := by
  refine ⟨rfl, ?_, ?_⟩
  · exact (no_playback_without_deltas .text .text false
      [mkDoneEvent [⟨"message", "assistant", [⟨"text", "hi"⟩]⟩]]
      (mkClient .text .text false) ⟨[Json.str "hi"], []⟩ rfl).1
      (by intro e he
          simp only [List.mem_singleton] at he
          subst he
          rfl)
  · exact ((no_playback_without_deltas .text .text false
      [mkDoneEvent [⟨"message", "assistant", [⟨"text", "hi"⟩]⟩]]
      (mkClient .text .text false) ⟨[Json.str "hi"], []⟩ rfl).2 rfl).2

/-! ### Claim C1 -/

/-- **C1 (amended).** Push-to-talk release obeys a strict minimum-hold
threshold: for every hold duration `d > 0.5` s, release calls
`commit_audio_buffer` then `create_response`, each exactly once and in that
order (after stopping the stream); for every `d ≤ 0.5` — including exactly
the threshold — release calls neither.  (Both `pi-realtime.py` and
`mac-realtime.py` compare with `held_time > 0.5`, so a hold of exactly the
threshold is discarded, contrary to the claim's `d ≥ threshold`.) -/
theorem pushToTalk_release_threshold (d : ℚ) :
    (1/2 < d →
      piOnRelease d = [.stopStream, .ledOff, .commitAudio, .createResponse] ∧
      macOnRelease d = [.stopStream, .commitAudio, .createResponse]) ∧
    (d ≤ 1/2 →
      piOnRelease d = [.stopStream, .ledOff] ∧
      macOnRelease d = [.stopStream]) := by
  constructor
  · intro h
    constructor <;> simp [piOnRelease, macOnRelease] <;> linarith
  · intro h
    constructor <;> simp [piOnRelease, macOnRelease] <;> linarith

/-- Witness for C1: a 1 s hold commits and requests a response on both
front ends; a 0.3 s hold does neither. -/
theorem pushToTalk_release_threshold_witness :
    (1/2 : ℚ) < 1 ∧
    piOnRelease 1 = [.stopStream, .ledOff, .commitAudio, .createResponse] ∧
    macOnRelease 1 = [.stopStream, .commitAudio, .createResponse] ∧
    (3/10 : ℚ) ≤ 1/2 ∧
    piOnRelease (3/10) = [.stopStream, .ledOff] := by
  refine ⟨by norm_num, ?_, ?_, by norm_num, ?_⟩
  · exact ((pushToTalk_release_threshold 1).1 (by norm_num)).1
  · exact ((pushToTalk_release_threshold 1).1 (by norm_num)).2
  · exact ((pushToTalk_release_threshold (3/10)).2 (by norm_num)).1

/-- **C1 (counterexample).** At a hold of exactly the threshold
(`d = 0.5 s`), the claim requires commit and response creation; both release
handlers perform neither (the comparison is strict). -/
theorem pushToTalk_release_at_threshold :
    piOnRelease (1/2) = [.stopStream, .ledOff] ∧
    PTAction.commitAudio ∉ piOnRelease (1/2) ∧
    macOnRelease (1/2) = [.stopStream] ∧
    PTAction.createResponse ∉ macOnRelease (1/2) := by
  have hpi : piOnRelease (1/2) = [.stopStream, .ledOff] := by
    simp [piOnRelease]
  have hmac : macOnRelease (1/2) = [.stopStream] := by
    simp [macOnRelease]
  refine ⟨hpi, ?_, hmac, ?_⟩
  · rw [hpi]; decide
  · rw [hmac]; decide

/-! ### Claim C6 -/

/-- With no playback handle, the gate is down — the invariant every step of
the playback subsystem preserves.  (A handle in the `exited` state can hold
the gate up only until the loop's next playback poll.) -/
def AmpInv (s : AmpState) : Prop := s.proc = none → s.speaker = false

theorem ampStep_inv (s : AmpState) (e : AmpEvent) (h : AmpInv s) :
    AmpInv (ampStep s e) := by
  cases e with
  | play ok =>
    cases ok <;>
      simp [ampStep, play_audio, stop_audio_playback, AmpInv] at h ⊢
  | stop =>
    unfold ampStep stop_audio_playback
    cases hp : s.proc with
    | none => simpa [AmpInv, hp] using h
    | some p => cases p <;> simp [AmpInv, hp] at h ⊢
  | procExit =>
    unfold ampStep
    cases hp : s.proc with
    | none => simpa [AmpInv, hp] using h
    | some p => cases p <;> simp [AmpInv, hp] at h ⊢
  | poll =>
    unfold ampStep pollPlaybackDone
    cases hp : s.proc with
    | none => simpa [AmpInv, hp] using h
    | some p => cases p <;> simp [AmpInv, hp] at h ⊢

theorem ampRun_inv (es : List AmpEvent) : AmpInv (ampRun es) := by
  suffices hgen : ∀ (s : AmpState), AmpInv s → AmpInv (es.foldl ampStep s) by
    exact hgen ampInit (fun _ => rfl)
  induction es with
  | nil => intro s h; exact h
  | cons e rest ih =>
    intro s h
    exact ih (ampStep s e) (ampStep_inv s e h)

/-- **C6 (confirmed).** The speaker-amplifier gate is enabled immediately
before audio output starts and disabled immediately after playback ends or
is interrupted, and in every state the control loop observes (its playback
poll at main.py lines 322-325 runs at the end of every iteration) in which
no audio is flowing, the gate is disabled — including after a playback that
completes without being interrupted, where it is exactly that poll that
clears the handle and disables the gate.  On the Pi realtime client,
`play_pcm16_audio`'s thread enables the gate immediately before `aplay` and
its `finally` leaves the gate disabled however playback ends. -/
theorem speaker_gate_never_left_enabled :
    (∀ s : AmpState, ampStep s (.play true) = ⟨true, some .running⟩) ∧
    (∀ s : AmpState, audioFlowing s → ampStep s .stop = ⟨false, none⟩) ∧
    playPcm16Steps false =
      [.writeWav, .enableSpeaker, .runAplay, .disableSpeaker] ∧
    (∀ (w : Bool) (g₀ : Bool), piGateAfterThread w g₀ = false) ∧
    (∀ es : List AmpEvent, ¬ audioFlowing (ampRun (es ++ [.poll])) →
      (ampRun (es ++ [.poll])).speaker = false) := by
  refine ⟨?_, ?_, rfl, ?_, ?_⟩
  · intro s
    cases hp : s.proc with
    | none => simp [ampStep, play_audio, stop_audio_playback, hp]
    | some p => cases p <;> simp [ampStep, play_audio, stop_audio_playback, hp]
  · intro s h
    unfold audioFlowing at h
    simp [ampStep, stop_audio_playback, h]
  · intro w g₀
    cases w <;> rfl
  · intro es hnf
    have hinv : AmpInv (ampRun es) := ampRun_inv es
    have hsplit : ampRun (es ++ [.poll]) = ampStep (ampRun es) .poll := by
      simp [ampRun, List.foldl_append]
    rw [hsplit] at hnf ⊢
    unfold ampStep pollPlaybackDone at hnf ⊢
    cases hp : (ampRun es).proc with
    | none => simp [hp] at hnf ⊢; exact hinv hp
    | some p =>
      cases p with
      | running => simp [hp, audioFlowing] at hnf
      | exited => simp [hp]

/-- Witness for C6: playback starts (gate up, audio flowing), the `aplay`
process exits on its own, and the next loop iteration's poll observes it —
the gate ends disabled with no audio flowing. -/
theorem speaker_gate_never_left_enabled_witness :
    ampRun [.play true, .procExit, .poll] = ⟨false, none⟩ ∧
    ¬ audioFlowing (ampRun [.play true, .procExit, .poll]) ∧
    (ampRun [.play true, .procExit, .poll]).speaker = false := by
  have hnf : ¬ audioFlowing (ampRun [.play true, .procExit, .poll]) := by
    intro h
    simp [ampRun, ampStep, play_audio, stop_audio_playback, pollPlaybackDone,
      ampInit, audioFlowing] at h
  exact ⟨rfl, hnf,
    speaker_gate_never_left_enabled.2.2.2.2 [.play true, .procExit] hnf⟩

/-! ### Claim C7 -/

/-- **C7 (confirmed).** Calling `send_text_message` while the configured
input modality is audio is reported as a local error — the call returns
`False` and makes no `ws.send` at all (nothing goes over the wire); when the
input modality is text, a connection exists and the transport delivers, the
user message event is sent (followed by the implicit `response.create`) and
the call returns `True`. -/
theorem sendText_modality_contract (c : Client) (text : String) :
    (c.input = .audio → send_text_message c text = (c, [], false)) ∧
    (∀ o : Nat → Bool, c.input = .text → c.ws = some o →
      (∀ n, o n = true) →
      sentEvents (send_text_message c text) =
        [itemCreateEvent text, respCreateEvent (defaultMods c.output)] ∧
      (send_text_message c text).2.2 = true) := by
  constructor
  · intro hin
    unfold send_text_message
    cases hws : c.ws with
    | none => rfl
    | some o => simp [hin]
  · intro o hin hws hok
    unfold send_text_message
    rw [hws]
    simp [hin, wsSend, hok, create_response, hws, sentEvents]

/-- Witness for C7: a concrete audio-input client is refused with nothing
sent; a concrete text-input client with a delivering connection sends the
user message event and the response request. -/
theorem sendText_modality_contract_witness :
    send_text_message
      { input := .audio, output := .text, playbackPresent := false,
        audio_buffer := [], ws := some (fun _ => true), sendCount := 0 } "hi" =
      ({ input := .audio, output := .text, playbackPresent := false,
         audio_buffer := [], ws := some (fun _ => true), sendCount := 0 },
       [], false) ∧
    sentEvents (send_text_message
      { input := .text, output := .text, playbackPresent := false,
        audio_buffer := [], ws := some (fun _ => true), sendCount := 0 } "hi") =
      [itemCreateEvent "hi", respCreateEvent ["text"]] := by
  constructor
  · exact (sendText_modality_contract _ "hi").1 rfl
  · exact ((sendText_modality_contract _ "hi").2 (fun _ => true) rfl rfl
      (fun n => rfl)).1

/-! ### Claim C8 -/

/-- **C8 (amended).** Every `response.create` event that `create_response`
sends *when called with its default `modalities=None`* includes the text
modality: with configured output audio the event carries
`["text", "audio"]`, with output text it carries `["text"]`.  An explicit
`modalities` argument, however, is sent verbatim and may omit text (see the
counterexample); no caller in the repository passes one. -/
theorem createResponse_default_includes_text (c : Client) (o : Nat → Bool)
    (hws : c.ws = some o) :
    (create_response c none).2.1.map (fun a => a.ev) =
      [respCreateEvent (defaultMods c.output)] ∧
    "text" ∈ defaultMods c.output ∧
    (∀ ms, (create_response c (some ms)).2.1.map (fun a => a.ev) =
      [respCreateEvent ms]) := by
  refine ⟨?_, ?_, ?_⟩
  · unfold create_response
    rw [hws]
    rfl
  · cases h : c.output <;> simp [defaultMods]
  · intro ms
    unfold create_response
    rw [hws]
    rfl

/-- Witness for C8: a connected audio-output client's default
`response.create` requests `["text", "audio"]` — text included. -/
theorem createResponse_default_includes_text_witness :
    (create_response
      { input := .text, output := .audio, playbackPresent := true,
        audio_buffer := [], ws := some (fun _ => true), sendCount := 0 }
      none).2.1.map (fun a => a.ev) =
      [respCreateEvent ["text", "audio"]] ∧
    "text" ∈ (["text", "audio"] : List String) := by
  constructor
  · exact (createResponse_default_includes_text _ (fun _ => true) rfl).1
  · exact (createResponse_default_includes_text
      { input := .text, output := .audio, playbackPresent := true,
        audio_buffer := [], ws := some (fun _ => true), sendCount := 0 }
      (fun _ => true) rfl).2.1

/-- **C8 (counterexample).** The claim as stated quantifies over every
`response.create` the operation sends; a call with an explicit modalities
list `["audio"]` sends exactly that list, which does not include
`"text"`. -/
theorem createResponse_explicit_can_omit_text :
    (create_response
      { input := .text, output := .audio, playbackPresent := true,
        audio_buffer := [], ws := some (fun _ => true), sendCount := 0 }
      (some ["audio"])).2.1.map (fun a => a.ev) =
      [respCreateEvent ["audio"]] ∧
    "text" ∉ (["audio"] : List String) := by
  exact ⟨rfl, by decide⟩

/-! ### Claim C9 -/

/-- **C9 (confirmed).** Over a transport that delivers every send, a
successful `send_text_message` call puts exactly two events on the socket,
in order: the `conversation.item.create` carrying the user's text,
immediately followed by the `response.create` (triggered internally, with no
separate caller action). -/
theorem sendText_sends_two_events (c : Client) (o : Nat → Bool)
    (text : String) (hws : c.ws = some o) (hok : ∀ n, o n = true)
    (hsucc : (send_text_message c text).2.2 = true) :
    sentEvents (send_text_message c text) =
      [itemCreateEvent text, respCreateEvent (defaultMods c.output)] := by
  cases hin : c.input with
  | audio =>
    unfold send_text_message at hsucc
    rw [hws] at hsucc
    simp [hin] at hsucc
  | text =>
    unfold send_text_message
    rw [hws]
    simp [hin, wsSend, hok, create_response, hws, sentEvents]

/-- Witness for C9: a concrete successful call sends exactly the two events
in order. -/
theorem sendText_sends_two_events_witness :
    (send_text_message
      { input := .text, output := .audio, playbackPresent := true,
        audio_buffer := [], ws := some (fun _ => true), sendCount := 0 }
      "hello").2.2 = true ∧
    sentEvents (send_text_message
      { input := .text, output := .audio, playbackPresent := true,
        audio_buffer := [], ws := some (fun _ => true), sendCount := 0 }
      "hello") = [itemCreateEvent "hello", respCreateEvent ["text", "audio"]] := by
  constructor
  · rfl
  · exact sendText_sends_two_events _ (fun _ => true) "hello" rfl
      (fun n => rfl) rfl

/-! ### Claim C10 -/

/-- **C10 (amended).** `normalize_audio` is total on every *non-empty* int16
sample array: when the maximum absolute sample value is 0 the input array is
returned unchanged, so the division `32767.0 / max_val` is evaluated only in
the branch where the maximum is non-zero — never a division by zero.  (On an
empty array, `np.max` itself raises `ValueError`, so totality fails there —
see the counterexample.) -/
theorem normalize_audio_total_nonempty (a : List ℤ) (ha : a ≠ []) :
    (normalize_audio a).isOk = true ∧
    (maxAbs a = some 0 → normalize_audio a = .ok a) ∧
    (∀ m, maxAbs a = some m → m ≠ 0 →
      normalize_audio a = .ok (a.map (scaleSample m))) := by
  cases a with
  | nil => exact absurd rfl ha
  | cons x xs =>
    refine ⟨?_, ?_, ?_⟩
    · unfold normalize_audio
      cases h : maxAbs (x :: xs) with
      | none => simp [maxAbs] at h
      | some m =>
        by_cases hm : m = 0 <;> simp [hm, Except.isOk, Except.toBool]
    · intro h0
      unfold normalize_audio
      rw [h0]
      simp
    · intro m hm hm0
      unfold normalize_audio
      rw [hm]
      simp [hm0]

/-- Witness for C10: the all-zero one-sample array is returned unchanged,
and a non-zero array is rescaled without error. -/
theorem normalize_audio_total_nonempty_witness :
    ([0] : List ℤ) ≠ [] ∧
    maxAbs [0] = some 0 ∧
    normalize_audio [0] = .ok [0] ∧
    (normalize_audio [100, -50]).isOk = true := by
  refine ⟨by decide, by decide, ?_, ?_⟩
  · exact (normalize_audio_total_nonempty [0] (by decide)).2.1 (by decide)
  · exact (normalize_audio_total_nonempty [100, -50] (by decide)).1

/-- **C10 (counterexample).** The claim as stated covers every int16 sample
array; on the empty array `np.max(np.abs(audio_array))` raises `ValueError`
("zero-size array to reduction operation"), so the function is not total
there. -/
theorem normalize_audio_empty_raises :
    (normalize_audio ([] : List ℤ)).isOk = false := rfl
